import Mathlib

/-!
Shallow embedding of the channel-selection core of
drivers/i2c/muxes/i2c-mux-pca954x.c: the static chip catalog, the
select/deselect register encoding and state machine, the shared-IRQ
demultiplexer, and the probe/resume lifecycle, with the bus collaborators
(register writes, identity reads, irq-domain services) abstracted as
explicit outcome parameters.
-/

namespace Pca954x

/-- PCA954X_MAX_NCHANS from the source: hardware addressing width. -/
def PCA954X_MAX_NCHANS : Nat := 8

/-- PCA954X_IRQ_OFFSET from the source: first status bit carrying a channel interrupt. -/
def PCA954X_IRQ_OFFSET : Nat := 4

/-- BIT(n) from the kernel headers. -/
def BIT (n : Nat) : Nat := 1 <<< n

/-- Sentinel meaning "no identity to verify" (I2C_DEVICE_ID_NONE in include/linux/i2c.h). -/
def I2C_DEVICE_ID_NONE : Nat := 0xffff

/-- Manufacturer id of NXP (I2C_DEVICE_ID_NXP_SEMICONDUCTORS in include/linux/i2c.h). -/
def I2C_DEVICE_ID_NXP_SEMICONDUCTORS : Nat := 0

/-- Error numbers used by the driver (asm-generic errno values). -/
def ENODEV : Int := 19

def ENOMEM : Int := 12

def EINVAL : Int := 22

def EOPNOTSUPP : Int := 95

/-- The enum muxtype of the source. -/
inductive Muxtype where
  | pca954x_ismux
  | pca954x_isswi
  deriving DecidableEq, Repr

/-- struct i2c_device_identity from the kernel headers. -/
structure i2c_device_identity where
  manufacturer_id : Nat
  part_id : Nat
  die_revision : Nat
  deriving DecidableEq, Repr

/-- struct chip_desc from the source. -/
structure chip_desc where
  nchans : Nat
  enable : Nat
  has_irq : Bool
  muxtype : Muxtype
  id : i2c_device_identity
  deriving DecidableEq, Repr

/-- The enum pca_type of the source: the twelve supported variants. -/
inductive pca_type where
  | pca_9540
  | pca_9542
  | pca_9543
  | pca_9544
  | pca_9545
  | pca_9546
  | pca_9547
  | pca_9548
  | pca_9846
  | pca_9847
  | pca_9848
  | pca_9849
  deriving DecidableEq, Repr, Fintype

/-- The static chips[] catalog of the source, indexed by variant.
C designated-initializer fields left out are zero, so switch variants
have enable 0, and entries without an .enable line in the source get 0. -/
def chips : pca_type → chip_desc
  | .pca_9540 =>
    { nchans := 2, enable := 0x4, has_irq := false, muxtype := .pca954x_ismux,
      id := { manufacturer_id := I2C_DEVICE_ID_NONE, part_id := 0, die_revision := 0 } }
  | .pca_9542 =>
    { nchans := 2, enable := 0x4, has_irq := true, muxtype := .pca954x_ismux,
      id := { manufacturer_id := I2C_DEVICE_ID_NONE, part_id := 0, die_revision := 0 } }
  | .pca_9543 =>
    { nchans := 2, enable := 0, has_irq := true, muxtype := .pca954x_isswi,
      id := { manufacturer_id := I2C_DEVICE_ID_NONE, part_id := 0, die_revision := 0 } }
  | .pca_9544 =>
    { nchans := 4, enable := 0x4, has_irq := true, muxtype := .pca954x_ismux,
      id := { manufacturer_id := I2C_DEVICE_ID_NONE, part_id := 0, die_revision := 0 } }
  | .pca_9545 =>
    { nchans := 4, enable := 0, has_irq := true, muxtype := .pca954x_isswi,
      id := { manufacturer_id := I2C_DEVICE_ID_NONE, part_id := 0, die_revision := 0 } }
  | .pca_9546 =>
    { nchans := 4, enable := 0, has_irq := false, muxtype := .pca954x_isswi,
      id := { manufacturer_id := I2C_DEVICE_ID_NONE, part_id := 0, die_revision := 0 } }
  | .pca_9547 =>
    { nchans := 8, enable := 0x8, has_irq := false, muxtype := .pca954x_ismux,
      id := { manufacturer_id := I2C_DEVICE_ID_NONE, part_id := 0, die_revision := 0 } }
  | .pca_9548 =>
    { nchans := 8, enable := 0, has_irq := false, muxtype := .pca954x_isswi,
      id := { manufacturer_id := I2C_DEVICE_ID_NONE, part_id := 0, die_revision := 0 } }
  | .pca_9846 =>
    { nchans := 4, enable := 0, has_irq := false, muxtype := .pca954x_isswi,
      id := { manufacturer_id := I2C_DEVICE_ID_NXP_SEMICONDUCTORS, part_id := 0x10b,
              die_revision := 0 } }
  | .pca_9847 =>
    { nchans := 8, enable := 0x8, has_irq := false, muxtype := .pca954x_ismux,
      id := { manufacturer_id := I2C_DEVICE_ID_NXP_SEMICONDUCTORS, part_id := 0x108,
              die_revision := 0 } }
  | .pca_9848 =>
    { nchans := 8, enable := 0, has_irq := false, muxtype := .pca954x_isswi,
      id := { manufacturer_id := I2C_DEVICE_ID_NXP_SEMICONDUCTORS, part_id := 0x10a,
              die_revision := 0 } }
  | .pca_9849 =>
    { nchans := 4, enable := 0x4, has_irq := false, muxtype := .pca954x_ismux,
      id := { manufacturer_id := I2C_DEVICE_ID_NXP_SEMICONDUCTORS, part_id := 0x109,
              die_revision := 0 } }

/-- The mutable per-device fields of struct pca954x touched by the
selection state machine: last_chan (last register value) and the
deselect bitmask. -/
structure pca954x where
  last_chan : Nat
  deselect : Nat
  deriving DecidableEq, Repr

/-- Outcome of one select or deselect call: the updated device state,
the int returned to the caller, and the ordered list of bytes actually
written to the control register during the call. -/
structure MuxOpResult where
  data : pca954x
  ret : Int
  writes : List Nat
  deriving DecidableEq, Repr

/-- The regval computation inside pca954x_select_chan (u8 regval, hence
the mod 256): mux variants encode chan OR enable, switch variants encode
1 shifted left by chan. -/
def pca954x_select_regval (chip : chip_desc) (chan : Nat) : Nat :=
  if chip.muxtype = .pca954x_ismux then (chan ||| chip.enable) % 256
  else (1 <<< chan) % 256

/-- pca954x_select_chan. The bus-write collaborator pca954x_reg_write is
abstracted by busRet, the int it returns for the one write the function
issues; the source then stores 0 into last_chan when busRet < 0 and
regval otherwise, and returns busRet. -/
def pca954x_select_chan (chip : chip_desc) (data : pca954x) (chan : Nat)
    (busRet : Int) : MuxOpResult :=
  let regval := pca954x_select_regval chip chan
  { data := { data with last_chan := if busRet < 0 then 0 else regval },
    ret := busRet,
    writes := [regval] }

/-- pca954x_deselect_mux. When the deselect mask does not mark chan the
source returns 0 at once with no bus access; otherwise it stores 0 into
last_chan and returns the result of writing that 0 to the register. -/
def pca954x_deselect_mux (data : pca954x) (chan : Nat) (busRet : Int) :
    MuxOpResult :=
  if data.deselect &&& (1 <<< chan) = 0 then
    { data := data, ret := 0, writes := [] }
  else
    { data := { data with last_chan := 0 }, ret := busRet, writes := [0] }

/-- irqreturn_t values used by the handler. -/
inductive irqreturn where
  | IRQ_NONE
  | IRQ_HANDLED
  deriving DecidableEq, Repr

/-- Outcome of one shared-interrupt notification: the channel indices a
nested interrupt was dispatched to, in loop order, and the irqreturn_t. -/
structure IrqResult where
  dispatched : List Nat
  ret : irqreturn
  deriving DecidableEq, Repr

/-- pca954x_irq_handler. statusRead abstracts i2c_smbus_read_byte: none
for a negative return (the handler then reports IRQ_NONE without
dispatching), some status for a successful read of the status byte. The
loop dispatches channel i iff bit PCA954X_IRQ_OFFSET + i of the status is
set, and the handler reports IRQ_HANDLED iff the handled counter is
positive. -/
def pca954x_irq_handler (chip : chip_desc) (statusRead : Option Nat) :
    IrqResult :=
  match statusRead with
  | none => { dispatched := [], ret := .IRQ_NONE }
  | some status =>
    let dispatched := (List.range chip.nchans).filter
      (fun i => status &&& BIT (PCA954X_IRQ_OFFSET + i) != 0)
    { dispatched := dispatched,
      ret := if dispatched.length > 0 then .IRQ_HANDLED else .IRQ_NONE }

/-- One entry of pdata->modes in struct pca954x_platform_data. -/
structure pca954x_mode where
  adap_id : Nat
  adap_class : Nat
  deselect_on_exit : Bool
  deriving DecidableEq, Repr

/-- struct pca954x_platform_data: modes plus num_modes (the length). -/
structure pca954x_platform_data where
  modes : List pca954x_mode
  deriving DecidableEq, Repr

/-- pca954x_irq_setup. client_irq abstracts client->irq; domain_ok tells
whether irq_domain_add_linear returned a domain; map_ok c tells whether
irq_create_mapping succeeded for channel c. Returns 0 when the variant
has no irq support or no physical line was provided (no-op), -ENODEV when
the domain cannot be created, -EINVAL when some mapping fails. -/
def pca954x_irq_setup (chip : chip_desc) (client_irq : Int) (domain_ok : Bool)
    (map_ok : Nat → Bool) : Int :=
  if !chip.has_irq || client_irq ≤ 0 then 0
  else if !domain_ok then -ENODEV
  else if (List.range chip.nchans).all map_ok then 0
  else -EINVAL

/-- State of the adapter-creation loop of pca954x_probe: the deselect
mask accumulated so far, the channels whose adapter was added (in order),
and the error that aborted the loop, if any. -/
structure LoopState where
  deselect : Nat
  added : List Nat
  err : Option Int
  deriving DecidableEq, Repr

/-- The body of the for loop of pca954x_probe, one iteration per unit of
fuel starting at channel num. With platform data, a channel at or past
num_modes breaks out of the loop (discard unconfigured channels) and the
per-channel idle-disconnect flag comes from deselect_on_exit; without it
only the device-tree flag counts. Each iteration ORs the flag into the
deselect mask and then calls i2c_mux_add_adapter, whose result for
channel num is abstracted by addRet num; a nonzero result aborts. -/
def pca954x_probe_loop_go (pdata : Option pca954x_platform_data)
    (idle_disconnect_dt : Bool) (addRet : Nat → Int) :
    Nat → Nat → LoopState → LoopState
  | _, 0, st => st
  | num, fuel + 1, st =>
    match pdata with
    | some pd =>
      if h : num < pd.modes.length then
        let idle_disconnect_pd := (pd.modes.get ⟨num, h⟩).deselect_on_exit
        let st1 := { st with deselect := st.deselect |||
          ((if idle_disconnect_pd || idle_disconnect_dt then 1 else 0) <<< num) }
        if addRet num ≠ 0 then { st1 with err := some (addRet num) }
        else pca954x_probe_loop_go pdata idle_disconnect_dt addRet (num + 1) fuel
          { st1 with added := st1.added ++ [num] }
      else st
    | none =>
      let st1 := { st with deselect := st.deselect |||
        ((if idle_disconnect_dt then 1 else 0) <<< num) }
      if addRet num ≠ 0 then { st1 with err := some (addRet num) }
      else pca954x_probe_loop_go pdata idle_disconnect_dt addRet (num + 1) fuel
        { st1 with added := st1.added ++ [num] }

/-- The adapter-creation loop of pca954x_probe, run over all channel
indices 0 up to chip.nchans. -/
def pca954x_probe_loop (chip : chip_desc) (pdata : Option pca954x_platform_data)
    (idle_disconnect_dt : Bool) (addRet : Nat → Int) : LoopState :=
  pca954x_probe_loop_go pdata idle_disconnect_dt addRet 0 chip.nchans
    { deselect := 0, added := [], err := none }

/-- The identity-verification stage of pca954x_probe (the block guarded
by chip id manufacturer_id being different from I2C_DEVICE_ID_NONE).
idRet abstracts the return of i2c_get_device_id, idVal the identity it
filled in: any error other than -EOPNOTSUPP propagates, a successful read
with a mismatching manufacturer or part id is -ENODEV, everything else
(no identity configured, or an -EOPNOTSUPP read) passes. -/
def pca954x_probe_id_check (chip : chip_desc) (idRet : Int)
    (idVal : i2c_device_identity) : Except Int Unit :=
  if chip.id.manufacturer_id = I2C_DEVICE_ID_NONE then .ok ()
  else if idRet ≠ 0 ∧ idRet ≠ -EOPNOTSUPP then .error idRet
  else if idRet = 0 ∧ (idVal.manufacturer_id ≠ chip.id.manufacturer_id ∨
      idVal.part_id ≠ chip.id.part_id) then .error (-ENODEV)
  else .ok ()

/-- Collaborator outcomes consumed by pca954x_probe, in call order:
i2c_check_functionality, i2c_mux_alloc, devm_gpiod_get_optional (some e
for an IS_ERR result), i2c_get_device_id, the initial
i2c_smbus_write_byte of 0, client->irq with the irq-domain services, the
platform data and device-tree idle-disconnect flag, i2c_mux_add_adapter
per channel, and devm_request_threaded_irq. -/
structure ProbeEnv where
  func_ok : Bool
  alloc_ok : Bool
  gpioErr : Option Int
  idRet : Int
  idVal : i2c_device_identity
  initWriteRet : Int
  client_irq : Int
  domain_ok : Bool
  map_ok : Nat → Bool
  pdata : Option pca954x_platform_data
  idle_disconnect_dt : Bool
  addRet : Nat → Int
  reqIrqRet : Int

/-- The device state pca954x_probe leaves behind on success: the resolved
descriptor, last_chan, the deselect mask, the channels that got an
adapter, and the irq-domain mappings when the demultiplexer is active. -/
structure DeviceState where
  chip : chip_desc
  last_chan : Nat
  deselect : Nat
  adapters : List Nat
  irq : Option (List Nat)
  deriving DecidableEq, Repr

deriving instance DecidableEq for Except

/-- Result of a probe: the value returned to the caller (a device state
on success, the errno otherwise) and the channels for which
i2c_mux_add_adapter was invoked successfully during the attempt. -/
structure ProbeResult where
  res : Except Int DeviceState
  adapters_added : List Nat
  deriving DecidableEq, Repr

/-- The stages of pca954x_probe after the identity check: the initial
write of byte 0 (failure means the device is not present, -ENODEV), the
irq setup, the adapter loop, and the threaded-irq request when an irq
domain was built. -/
def pca954x_probe_after_id (chip : chip_desc) (env : ProbeEnv) : ProbeResult :=
  if env.initWriteRet < 0 then { res := .error (-ENODEV), adapters_added := [] }
  else
    let irq_setup_ret := pca954x_irq_setup chip env.client_irq env.domain_ok env.map_ok
    if irq_setup_ret ≠ 0 then { res := .error irq_setup_ret, adapters_added := [] }
    else
      let st := pca954x_probe_loop chip env.pdata env.idle_disconnect_dt env.addRet
      match st.err with
      | some e => { res := .error e, adapters_added := st.added }
      | none =>
        let irq_active := chip.has_irq && env.client_irq > 0
        if irq_active && env.reqIrqRet ≠ 0 then
          { res := .error env.reqIrqRet, adapters_added := st.added }
        else
          let dev : DeviceState :=
            { chip := chip, last_chan := 0, deselect := st.deselect,
              adapters := st.added,
              irq := if irq_active then some (List.range chip.nchans) else none }
          { res := .ok dev, adapters_added := st.added }

/-- pca954x_probe. The functionality check, mux-core allocation and
optional reset gpio precede descriptor resolution (abstracted by the chip
argument, the resolved descriptor); then the identity check, then the
stages of pca954x_probe_after_id. -/
def pca954x_probe (chip : chip_desc) (env : ProbeEnv) : ProbeResult :=
  if !env.func_ok then { res := .error (-ENODEV), adapters_added := [] }
  else if !env.alloc_ok then { res := .error (-ENOMEM), adapters_added := [] }
  else
    match env.gpioErr with
    | some e => { res := .error e, adapters_added := [] }
    | none =>
      match pca954x_probe_id_check chip env.idRet env.idVal with
      | .error e => { res := .error e, adapters_added := [] }
      | .ok _ => pca954x_probe_after_id chip env

/-- pca954x_resume: stores 0 into last_chan and writes byte 0 to the
register (writeRet abstracts the i2c_smbus_write_byte result, returned
unchanged). Yields the new device state, the int returned, and the bytes
written during the call. -/
def pca954x_resume (d : DeviceState) (writeRet : Int) :
    DeviceState × Int × List Nat :=
  ({ d with last_chan := 0 }, writeRet, [0])

/-- A concrete collaborator environment to exercise the probe model: all
collaborators succeed, no platform data, no physical irq line, and an
identity read that fills in (1, 2, 3). -/
def envIdMismatch : ProbeEnv :=
  { func_ok := true, alloc_ok := true, gpioErr := none, idRet := 0,
    idVal := { manufacturer_id := 1, part_id := 2, die_revision := 3 },
    initWriteRet := 0, client_irq := 0, domain_ok := true,
    map_ok := fun _ => true, pdata := none, idle_disconnect_dt := false,
    addRet := fun _ => 0, reqIrqRet := 0 }

/-- The same environment with an identity read answering -EOPNOTSUPP. -/
def envIdUnsupported : ProbeEnv :=
  { envIdMismatch with idRet := -EOPNOTSUPP }

/-- C1: for every chip variant and every channel index c below the
channel count, the register byte written by select is c OR enablePattern
for a mux variant and 1 shifted left by c for a switch variant. -/
theorem C1_select_encoding (t : pca_type) (data : pca954x) (busRet : Int)
    (c : Nat) (h : c < (chips t).nchans) :
    (pca954x_select_chan (chips t) data c busRet).writes =
      [if (chips t).muxtype = .pca954x_isswi then 1 <<< c
       else c ||| (chips t).enable] := by
  have hr : ∀ c2, c2 < (chips t).nchans →
      pca954x_select_regval (chips t) c2 =
        if (chips t).muxtype = .pca954x_isswi then 1 <<< c2
        else c2 ||| (chips t).enable := by
    cases t <;> decide
  show [pca954x_select_regval (chips t) c] = _
  rw [hr c h]

/-- Witness for C1 at the 8-channel mux pca9547 and channel 5: the byte
written is 5 OR 0x8 = 0xD. -/
theorem C1_select_encoding_witness :
    (pca954x_select_chan (chips .pca_9547) ⟨0, 0⟩ 5 0).writes =
      [if (chips .pca_9547).muxtype = .pca954x_isswi then 1 <<< 5
       else 5 ||| (chips .pca_9547).enable] :=
  C1_select_encoding .pca_9547 ⟨0, 0⟩ 0 5 (by decide)

/-- C2: a failed bus write in select leaves last_chan 0, a successful
select leaves it at the written target byte, and any deselect that
performs a bus write (the marked-channel path) leaves it 0 whatever the
write result was. -/
theorem C2_write_failure_resets_last_chan (chip : chip_desc) (data : pca954x)
    (chan : Nat) (busRet : Int) :
    (busRet < 0 → (pca954x_select_chan chip data chan busRet).data.last_chan = 0) ∧
    (0 ≤ busRet → (pca954x_select_chan chip data chan busRet).data.last_chan =
      pca954x_select_regval chip chan) ∧
    ((pca954x_deselect_mux data chan busRet).writes ≠ [] →
      (pca954x_deselect_mux data chan busRet).data.last_chan = 0) := by
  refine ⟨?_, ?_, ?_⟩
  · intro h
    simp [pca954x_select_chan, h]
  · intro h
    simp [pca954x_select_chan, not_lt.2 h]
  · intro h
    by_cases hc : data.deselect &&& (1 <<< chan) = 0
    · simp [pca954x_deselect_mux, hc] at h
    · simp [pca954x_deselect_mux, hc]

/-- Witness for C2: a failed select on pca9545 channel 2 caches 0, a
successful one caches the target byte, and a marked-channel deselect with
a failing write still caches 0. -/
theorem C2_write_failure_resets_last_chan_witness :
    (pca954x_select_chan (chips .pca_9545) ⟨4, 0⟩ 2 (-5)).data.last_chan = 0 ∧
    (pca954x_select_chan (chips .pca_9545) ⟨0, 0⟩ 2 0).data.last_chan =
      pca954x_select_regval (chips .pca_9545) 2 ∧
    (pca954x_deselect_mux ⟨0xD, 0b100⟩ 2 (-5)).data.last_chan = 0 :=
  ⟨(C2_write_failure_resets_last_chan (chips .pca_9545) ⟨4, 0⟩ 2 (-5)).1 (by decide),
   (C2_write_failure_resets_last_chan (chips .pca_9545) ⟨0, 0⟩ 2 0).2.1 (by decide),
   (C2_write_failure_resets_last_chan (chips .pca_9545) ⟨0xD, 0b100⟩ 2 (-5)).2.2
     (by decide)⟩

/-- C3: on a successful status read the dispatched channel set is exactly
the i below the channel count whose status bit 4 + i is set, the handler
answers IRQ_HANDLED iff that set is non-empty, and a failed status read
dispatches nothing and answers IRQ_NONE. -/
theorem C3_irq_dispatch (chip : chip_desc) (status : Nat) (i : Nat) :
    (i ∈ (pca954x_irq_handler chip (some status)).dispatched ↔
      i < chip.nchans ∧ status &&& BIT (PCA954X_IRQ_OFFSET + i) ≠ 0) ∧
    ((pca954x_irq_handler chip (some status)).ret = .IRQ_HANDLED ↔
      (pca954x_irq_handler chip (some status)).dispatched ≠ []) ∧
    pca954x_irq_handler chip none = ⟨[], .IRQ_NONE⟩ := by
  refine ⟨?_, ?_, rfl⟩
  · simp [pca954x_irq_handler, List.mem_filter, List.mem_range, bne_iff_ne]
  · by_cases h : ((List.range chip.nchans).filter
        (fun i => status &&& BIT (PCA954X_IRQ_OFFSET + i) != 0)) = []
    · simp [pca954x_irq_handler, h]
    · simp [pca954x_irq_handler, h, List.length_pos.2 h]

/-- C4: every select call performs exactly one bus write, of the encoded
target byte, for every cached last_chan value (in particular when the
target equals the cache: there is no skip-redundant-write path). -/
theorem C4_select_always_writes (chip : chip_desc) (data : pca954x)
    (chan : Nat) (busRet : Int) :
    (pca954x_select_chan chip data chan busRet).writes =
      [pca954x_select_regval chip chan] ∧
    (pca954x_select_chan chip data chan busRet).writes.length = 1 :=
  ⟨rfl, rfl⟩

/-- C5: a deselect on a channel not marked in the deselect mask returns 0
with zero bus writes and an unchanged state; on a marked channel it
writes the disconnected-state byte 0. -/
theorem C5_deselect_paths (data : pca954x) (chan : Nat) (busRet : Int) :
    (data.deselect &&& (1 <<< chan) = 0 →
      pca954x_deselect_mux data chan busRet = ⟨data, 0, []⟩) ∧
    (data.deselect &&& (1 <<< chan) ≠ 0 →
      (pca954x_deselect_mux data chan busRet).writes = [0]) := by
  constructor <;> intro h <;> simp [pca954x_deselect_mux, h]

/-- Witness for C5: channel 2 unmarked gives no write and ret 0; channel
2 marked writes the byte 0. -/
theorem C5_deselect_paths_witness :
    pca954x_deselect_mux ⟨0xD, 0⟩ 2 (-5) = ⟨⟨0xD, 0⟩, 0, []⟩ ∧
    (pca954x_deselect_mux ⟨0xD, 0b100⟩ 2 7).writes = [0] :=
  ⟨(C5_deselect_paths ⟨0xD, 0⟩ 2 (-5)).1 (by decide),
   (C5_deselect_paths ⟨0xD, 0b100⟩ 2 7).2 (by decide)⟩

/-- C9: on the fast path (channel not marked in the deselect mask),
deselect leaves the whole device state unchanged, whatever last_chan held,
and performs no write. -/
theorem C9_deselect_fast_path_frame (data : pca954x) (chan : Nat)
    (busRet : Int) (h : data.deselect &&& (1 <<< chan) = 0) :
    (pca954x_deselect_mux data chan busRet).data = data ∧
    (pca954x_deselect_mux data chan busRet).writes = [] := by
  simp [pca954x_deselect_mux, h]

/-- Witness for C9 with a non-zero cached last_chan 0xD. -/
theorem C9_deselect_fast_path_frame_witness :
    (pca954x_deselect_mux ⟨0xD, 0⟩ 2 (-5)).data = ⟨0xD, 0⟩ ∧
    (pca954x_deselect_mux ⟨0xD, 0⟩ 2 (-5)).writes = [] :=
  C9_deselect_fast_path_frame ⟨0xD, 0⟩ 2 (-5) (by decide)

/-- C10: for every variant and every channel index below the channel
count the select encoding is non-zero, and every mux variant in the
catalog has enablePattern 0x4 or 0x8. -/
theorem C10_select_encoding_nonzero (t : pca_type) (c : Nat)
    (h : c < (chips t).nchans) :
    pca954x_select_regval (chips t) c ≠ 0 ∧
    ((chips t).muxtype = .pca954x_ismux →
      (chips t).enable = 0x4 ∨ (chips t).enable = 0x8) := by
  revert c
  cases t <;> decide

/-- Witness for C10 at pca9540 channel 1. -/
theorem C10_select_encoding_nonzero_witness :
    pca954x_select_regval (chips .pca_9540) 1 ≠ 0 ∧
    ((chips .pca_9540).muxtype = .pca954x_ismux →
      (chips .pca_9540).enable = 0x4 ∨ (chips .pca_9540).enable = 0x8) :=
  C10_select_encoding_nonzero .pca_9540 1 (by decide)

/-- Helper: a successful identity read with a mismatching manufacturer or
part id makes the identity check fail with -ENODEV. -/
theorem id_check_mismatch (chip : chip_desc) (idVal : i2c_device_identity)
    (hid : chip.id.manufacturer_id ≠ I2C_DEVICE_ID_NONE)
    (hmis : idVal.manufacturer_id ≠ chip.id.manufacturer_id ∨
      idVal.part_id ≠ chip.id.part_id) :
    pca954x_probe_id_check chip 0 idVal = .error (-ENODEV) := by
  unfold pca954x_probe_id_check
  rw [if_neg hid, if_neg (fun h => h.1 rfl), if_pos ⟨rfl, hmis⟩]

/-- Helper: an identity read answering -EOPNOTSUPP passes the identity
check for every chip. -/
theorem id_check_eopnotsupp (chip : chip_desc) (idVal : i2c_device_identity) :
    pca954x_probe_id_check chip (-EOPNOTSUPP) idVal = .ok () := by
  unfold pca954x_probe_id_check
  by_cases hid : chip.id.manufacturer_id = I2C_DEVICE_ID_NONE
  · rw [if_pos hid]
  · rw [if_neg hid, if_neg (fun h => h.2 rfl),
      if_neg (fun h => absurd h.1 (by decide))]

/-- Helper: when the prelude collaborators succeed and the identity check
passes, probe continues with the stages after the identity check. -/
theorem probe_ok_stage (chip : chip_desc) (env : ProbeEnv)
    (hfunc : env.func_ok = true) (halloc : env.alloc_ok = true)
    (hgpio : env.gpioErr = none)
    (hok : pca954x_probe_id_check chip env.idRet env.idVal = .ok ()) :
    pca954x_probe chip env = pca954x_probe_after_id chip env := by
  simp [pca954x_probe, hfunc, halloc, hgpio, hok]

/-- Helper: when the prelude collaborators succeed and the identity check
fails with e, probe fails with e having added no adapter. -/
theorem probe_err_stage (chip : chip_desc) (env : ProbeEnv) (e : Int)
    (hfunc : env.func_ok = true) (halloc : env.alloc_ok = true)
    (hgpio : env.gpioErr = none)
    (herr : pca954x_probe_id_check chip env.idRet env.idVal = .error e) :
    pca954x_probe chip env = { res := .error e, adapters_added := [] } := by
  simp [pca954x_probe, hfunc, halloc, hgpio, herr]

/-- C6: with identity-verification data configured, a successful identity
read that mismatches makes attach fail with -ENODEV having constructed no
channel adapter; an identity read answering -EOPNOTSUPP lets attach
proceed exactly as when verification is skipped (the no-identity case,
stated as the third conjunct). -/
theorem C6_identity_verification (t : pca_type) (env : ProbeEnv)
    (hfunc : env.func_ok = true) (halloc : env.alloc_ok = true)
    (hgpio : env.gpioErr = none)
    (hid : (chips t).id.manufacturer_id ≠ I2C_DEVICE_ID_NONE) :
    (env.idRet = 0 →
      (env.idVal.manufacturer_id ≠ (chips t).id.manufacturer_id ∨
        env.idVal.part_id ≠ (chips t).id.part_id) →
      pca954x_probe (chips t) env =
        { res := .error (-ENODEV), adapters_added := [] }) ∧
    (env.idRet = -EOPNOTSUPP →
      pca954x_probe (chips t) env = pca954x_probe_after_id (chips t) env) ∧
    (∀ chip2 : chip_desc, chip2.id.manufacturer_id = I2C_DEVICE_ID_NONE →
      pca954x_probe chip2 env = pca954x_probe_after_id chip2 env) := by
  refine ⟨?_, ?_, ?_⟩
  · intro h0 hmis
    refine probe_err_stage _ env _ hfunc halloc hgpio ?_
    rw [h0]
    exact id_check_mismatch _ _ hid hmis
  · intro hE
    refine probe_ok_stage _ env hfunc halloc hgpio ?_
    rw [hE]
    exact id_check_eopnotsupp _ _
  · intro chip2 hnone
    refine probe_ok_stage _ env hfunc halloc hgpio ?_
    unfold pca954x_probe_id_check
    rw [if_pos hnone]

/-- Witness for C6 at the pca9846 (NXP identity 0x10b): a read answering
identity (1, 2, 3) aborts the probe with -ENODEV and no adapter, and an
-EOPNOTSUPP read lets the probe continue past the check. -/
theorem C6_identity_verification_witness :
    pca954x_probe (chips .pca_9846) envIdMismatch =
      { res := .error (-ENODEV), adapters_added := [] } ∧
    pca954x_probe (chips .pca_9846) envIdUnsupported =
      pca954x_probe_after_id (chips .pca_9846) envIdUnsupported :=
  ⟨(C6_identity_verification .pca_9846 envIdMismatch rfl rfl rfl
      (by decide)).1 rfl (by decide),
   (C6_identity_verification .pca_9846 envIdUnsupported rfl rfl rfl
      (by decide)).2.1 rfl⟩

/-- C7: resume stores 0 into last_chan and performs the single write of
the disconnected-state byte 0 (steps 5 and 6 of attach), returning the
bus result unchanged, and leaves the channel adapters, the irq table, the
descriptor and the deselect mask untouched. -/
theorem C7_resume_reinit_only (d : DeviceState) (writeRet : Int) :
    (pca954x_resume d writeRet).1 = { d with last_chan := 0 } ∧
    (pca954x_resume d writeRet).1.last_chan = 0 ∧
    (pca954x_resume d writeRet).1.adapters = d.adapters ∧
    (pca954x_resume d writeRet).1.irq = d.irq ∧
    (pca954x_resume d writeRet).1.chip = d.chip ∧
    (pca954x_resume d writeRet).1.deselect = d.deselect ∧
    (pca954x_resume d writeRet).2.1 = writeRet ∧
    (pca954x_resume d writeRet).2.2 = [0] :=
  ⟨rfl, rfl, rfl, rfl, rfl, rfl, rfl, rfl⟩

/-- Helper: each loop iteration adds at most one adapter, so the loop
adds at most fuel adapters beyond those already in the state. -/
theorem probe_loop_go_added_le (pdata : Option pca954x_platform_data)
    (idt : Bool) (addRet : Nat → Int) :
    ∀ fuel num st,
      (pca954x_probe_loop_go pdata idt addRet num fuel st).added.length ≤
        st.added.length + fuel := by
  intro fuel
  induction fuel with
  | zero =>
    intro num st
    simp [pca954x_probe_loop_go]
  | succ n ih =>
    intro num st
    unfold pca954x_probe_loop_go
    cases pdata with
    | none =>
      dsimp only
      split
      · exact Nat.le_add_right _ _
      · refine le_trans (ih (num + 1) _) ?_
        simp only [List.length_append, List.length_cons, List.length_nil]
        omega
    | some pd =>
      dsimp only
      split
      · split
        · exact Nat.le_add_right _ _
        · refine le_trans (ih (num + 1) _) ?_
          simp only [List.length_append, List.length_cons, List.length_nil]
          omega
      · exact Nat.le_add_right _ _

/-- Helper: the adapter loop of probe adds at most nchans adapters. -/
theorem probe_loop_added_le (chip : chip_desc)
    (pdata : Option pca954x_platform_data) (idt : Bool) (addRet : Nat → Int) :
    (pca954x_probe_loop chip pdata idt addRet).added.length ≤ chip.nchans := by
  have h := probe_loop_go_added_le pdata idt addRet chip.nchans 0
    { deselect := 0, added := [], err := none }
  simpa using h

/-- Helper: every probe outcome carries at most nchans added adapters. -/
theorem probe_adapters_le (chip : chip_desc) (env : ProbeEnv) :
    (pca954x_probe chip env).adapters_added.length ≤ chip.nchans := by
  unfold pca954x_probe pca954x_probe_after_id
  repeat first
  | exact probe_loop_added_le _ _ _ _
  | exact Nat.zero_le _
  | dsimp only
  | split

/-- C8: every catalog variant has a channel count in {2, 4, 8}, and every
probe, truncated by platform data or not, adds at most
PCA954X_MAX_NCHANS = 8 channel adapters. -/
theorem C8_channel_count_bound (t : pca_type) :
    ((chips t).nchans = 2 ∨ (chips t).nchans = 4 ∨ (chips t).nchans = 8) ∧
    (∀ env : ProbeEnv,
      (pca954x_probe (chips t) env).adapters_added.length ≤
        PCA954X_MAX_NCHANS) := by
  constructor
  · cases t <;> decide
  · intro env
    refine le_trans (probe_adapters_le _ env) ?_
    cases t <;> decide

end Pca954x
